import Mathlib

/-!
Shallow embedding of the garm Azure provider (src/provider/provider.go).
The Azure client (`client.AzureCli`) is modelled as an environment fixing the
result of each cloud operation; every run returns, besides the Go result
value, the ordered trace of cloud calls it issued.
-/

namespace GarmAz

/-- Go `params.BootstrapInstance`: the fields CreateInstance reads. -/
structure BootstrapInstance where
  name : String
  osType : String
  osArch : String
  deriving Repr, DecidableEq

/-- The constant `params.Amd64`, the single supported architecture (provider.go line 56). -/
def Amd64 : String := "amd64"

/-- The image details returned by `spec.ImageDetails()` (internal/spec):
the fields the orchestrator reads for the result record. -/
structure ImageDetails where
  sku : String
  version : String
  deriving Repr, DecidableEq

/-- Modelled from the spec: `spec.GetRunnerSpecFromBootstrapParams`
(internal/spec, not under src/) derives the ProvisioningSpec from the
bootstrap request as a deterministic transform, embedding the request itself;
per the spec's data model, the instance name is also the resource-group name
and the stable identifier.  We keep exactly the fields CreateInstance reads:
`spec.BootstrapParams`, `spec.DiskSizeGB`, `spec.UseEphemeralStorage`,
`spec.Confidential`, `spec.VMSize`, `spec.VirtualNetworkCIDR`,
`spec.AllocatePublicIP`, `spec.UseAcceleratedNetworking`. -/
structure RunnerSpec where
  bootstrapParams : BootstrapInstance
  diskSizeGB : Int
  useEphemeralStorage : Bool
  confidential : Bool
  vmSize : String
  virtualNetworkCIDR : String
  allocatePublicIP : Bool
  useAcceleratedNetworking : Bool
  deriving Repr, DecidableEq

/-- Go `armnetwork.PublicIPAddressPropertiesFormat`: the one field read. -/
structure PublicIPProperties where
  ipAddress : Option String
  deriving Repr, DecidableEq

/-- Go `armnetwork.PublicIPAddress`: the two fields CreateInstance reads, each a
possibly-nil pointer (provider.go lines 122-125). -/
structure PublicIPResp where
  properties : Option PublicIPProperties
  id : Option String
  deriving Repr, DecidableEq

/-- Subnet response: the `ID` pointer dereferenced at provider.go line 133. -/
structure SubnetResp where
  id : Option String
  deriving Repr, DecidableEq

/-- Network security group response: the `ID` pointer dereferenced at line 133. -/
structure NsgResp where
  id : Option String
  deriving Repr, DecidableEq

/-- Network interface response: the `ID` pointer dereferenced at line 138. -/
structure NicResp where
  id : Option String
  deriving Repr, DecidableEq

/-- Go `params.Address` (field `Type` rendered as `addrType`). -/
structure Address where
  address : String
  addrType : String
  deriving Repr, DecidableEq

/-- Go `params.PublicAddress`. -/
def PublicAddress : String := "public"

/-- Go `params.ProviderInstance`: the fields CreateInstance sets (lines 145-160). -/
structure ProviderInstance where
  providerID : String
  name : String
  osType : String
  osArch : String
  osName : String
  osVersion : String
  status : String
  addresses : List Address
  deriving Repr, DecidableEq

/-- One cloud call issued through the Azure client, with the arguments the
claims quantify over. -/
inductive CloudCall where
  | getMaxEphemeralDiskSize (vmSize : String)
  | createResourceGroup (name : String)
  | createVirtualNetwork (name : String)
  | createSubnet (name : String)
  | createPublicIP (name : String)
  | createNetworkSecurityGroup (name : String)
  | createNetWorkInterface (name : String)
  | createVirtualMachine (name : String) (cacheSize : Int)
  | deleteResourceGroup (name : String)
  deriving Repr, DecidableEq

/-- The Azure client modelled as fixed results for the operations
CreateInstance performs, together with the two pure collaborators that live
outside src/ (spec building and image resolution).  The compensating
`DeleteResourceGroup` needs no result entry: its error is discarded by the
deferred cleanup (provider.go line 101), so only its occurrence in the trace
matters. -/
structure AzEnv where
  getRunnerSpec : Except String RunnerSpec
  imageDetails : Except String ImageDetails
  getMaxEphemeralDiskSize : Except String Int
  createResourceGroup : Except String Unit
  createVirtualNetwork : Except String Unit
  createSubnet : Except String SubnetResp
  createPublicIP : Except String PublicIPResp
  createNetworkSecurityGroup : Except String NsgResp
  createNetWorkInterface : Except String NicResp
  createVirtualMachine : Except String Unit

/-- Result of a CreateInstance run: the Go `(params.ProviderInstance, error)`
pair, with a third alternative for a nil-pointer-dereference panic. -/
inductive Outcome where
  | ok (inst : ProviderInstance)
  | error (msg : String)
  | panicked
  deriving Repr, DecidableEq

/-- The deferred cleanup installed at provider.go lines 99-103: on every exit
taken after the resource group was created, the resource group is deleted
when the function-scope `err` variable is non-nil at that exit (the
deletion's own error is discarded).  `errVar` is the value that
function-scope variable holds at the exit in question. -/
def runDefer (name : String) (errVar : Option String) (calls : List CloudCall) :
    List CloudCall :=
  match errVar with
  | some _ => calls ++ [.deleteResourceGroup name]
  | none => calls

/-- Provider.go lines 128-161: the straight-line tail of CreateInstance after
the public-IP step, with `pubIP`/`pubIPID` the two variables flowing out of
that step.  Important Go scoping fact for the deferred cleanup: the
assignments at lines 128 (`nsg, err :=`) and 133 (`nic, err :=`) reuse the
function-scope `err`, while line 138 (`if err := a.azCli.CreateVirtualMachine(...)`)
declares a fresh `err` scoped to the `if`, leaving the function-scope `err`
nil on that failure path.  The dereferences `*subnet.ID`, `*nsg.ID` (line 133)
and `*nic.ID` (line 138) panic on a nil pointer, with the function-scope
`err` nil at those points. -/
def afterPublicIP (env : AzEnv) (sp : RunnerSpec) (imgDetails : ImageDetails)
    (subnet : SubnetResp) (cacheSize : Int) (pubIP : String)
    (calls : List CloudCall) : Outcome × List CloudCall :=
  let name := sp.bootstrapParams.name
  match env.createNetworkSecurityGroup with
  | .error e =>
    (.error ("failed to create network security group: " ++ e),
      runDefer name (some e) (calls ++ [.createNetworkSecurityGroup name]))
  | .ok nsg =>
    let calls4 := calls ++ [.createNetworkSecurityGroup name]
    match subnet.id with
    | none => (.panicked, runDefer name none calls4)
    | some _subnetID =>
      match nsg.id with
      | none => (.panicked, runDefer name none calls4)
      | some _nsgID =>
        match env.createNetWorkInterface with
        | .error e =>
          (.error ("failed to create NIC: " ++ e),
            runDefer name (some e) (calls4 ++ [.createNetWorkInterface name]))
        | .ok nic =>
          let calls5 := calls4 ++ [.createNetWorkInterface name]
          match nic.id with
          | none => (.panicked, runDefer name none calls5)
          | some _nicID =>
            match env.createVirtualMachine with
            | .error e =>
              (.error ("failed to create VM: " ++ e),
                runDefer name none
                  (calls5 ++ [.createVirtualMachine name cacheSize]))
            | .ok _ =>
              let inst : ProviderInstance :=
                { providerID := name
                  name := name
                  osType := sp.bootstrapParams.osType
                  osArch := sp.bootstrapParams.osArch
                  osName := imgDetails.sku
                  osVersion := imgDetails.version
                  status := "running"
                  addresses :=
                    if pubIP != "" then
                      [{ address := pubIP, addrType := PublicAddress }]
                    else [] }
              (.ok inst,
                runDefer name none
                  (calls5 ++ [.createVirtualMachine name cacheSize]))

/-- Embedding of `azureProvider.CreateInstance` (provider.go lines 55-162).
Exits before resource-group creation issue no compensating delete (the defer
is installed only at line 99).  At every later exit the deferred cleanup is
applied with the value the function-scope `err` variable holds there; note
that `publicIP, err := a.azCli.CreatePublicIP(...)` (line 118, inside the
`if spec.AllocatePublicIP` block) shadows the function-scope `err`, so a
public-IP failure leaves it nil. -/
def createInstance (bp : BootstrapInstance) (env : AzEnv) :
    Outcome × List CloudCall :=
  if bp.osArch != Amd64 then
    (.error ("invalid architecture " ++ bp.osArch ++ " (supported: " ++ Amd64 ++ ")"), [])
  else
    match env.getRunnerSpec with
    | .error e => (.error ("failed to generate spec: " ++ e), [])
    | .ok sp =>
      match env.imageDetails with
      | .error e => (.error ("failed to get image details: " ++ e), [])
      | .ok imgDetails =>
        let sizeStep : Except (String × List CloudCall) (Int × List CloudCall) :=
          if sp.useEphemeralStorage then
            match env.getMaxEphemeralDiskSize with
            | .error e =>
              .error ("failed to get max ephemeral disk size: " ++ e,
                [.getMaxEphemeralDiskSize sp.vmSize])
            | .ok maxSize0 =>
              let maxSize := if sp.confidential then maxSize0 - 1 else maxSize0
              let cacheSize := if sp.diskSizeGB == 0 then maxSize else sp.diskSizeGB
              if maxSize < sp.diskSizeGB then
                .error ("maximul ephemeral disk size for " ++ sp.vmSize ++ " is "
                    ++ toString maxSize ++ " GB (requested "
                    ++ toString sp.diskSizeGB ++ ")",
                  [.getMaxEphemeralDiskSize sp.vmSize])
              else
                .ok (cacheSize, [.getMaxEphemeralDiskSize sp.vmSize])
          else
            .ok (sp.diskSizeGB, [])
        match sizeStep with
        | .error me => (.error me.1, me.2)
        | .ok sc =>
          let cacheSize := sc.1
          let name := sp.bootstrapParams.name
          match env.createResourceGroup with
          | .error e =>
            (.error ("failed to create resource group: " ++ e),
              sc.2 ++ [.createResourceGroup name])
          | .ok _ =>
            let calls1 := sc.2 ++ [.createResourceGroup name]
            match env.createVirtualNetwork with
            | .error e =>
              (.error ("failed to create virtual network: " ++ e),
                runDefer name (some e) (calls1 ++ [.createVirtualNetwork name]))
            | .ok _ =>
              let calls2 := calls1 ++ [.createVirtualNetwork name]
              match env.createSubnet with
              | .error e =>
                (.error ("failed to create subnet: " ++ e),
                  runDefer name (some e) (calls2 ++ [.createSubnet name]))
              | .ok subnet =>
                let calls3 := calls2 ++ [.createSubnet name]
                if sp.allocatePublicIP then
                  match env.createPublicIP with
                  | .error e =>
                    (.error ("failed to create public IP: " ++ e),
                      runDefer name none (calls3 ++ [.createPublicIP name]))
                  | .ok publicIP =>
                    let pubIP :=
                      match publicIP.properties with
                      | some props =>
                        match props.ipAddress with
                        | some a => a
                        | none => ""
                      | none => ""
                    match publicIP.id with
                    | none =>
                      (.panicked,
                        runDefer name none (calls3 ++ [.createPublicIP name]))
                    | some _pubIPID =>
                      afterPublicIP env sp imgDetails subnet cacheSize pubIP
                        (calls3 ++ [.createPublicIP name])
                else
                  afterPublicIP env sp imgDetails subnet cacheSize "" calls3

/-- A provider-native virtual-machine record (`armcompute.VirtualMachine`);
its contents only matter to the translation collaborator, which is a
parameter below, so a single opaque field suffices. -/
structure AzVM where
  tag : Nat
  deriving Repr, DecidableEq

/-- The loop of ListInstances (provider.go lines 197-207): walk the response
slice in order; a nil element is a protocol-violation error, a translation
failure is wrapped; otherwise the translated records are collected in order.
`conv` models `util.AzureInstanceToParamsInstance` (internal/util). -/
def listLoop (conv : AzVM → Except String ProviderInstance) :
    List (Option AzVM) → Except String (List ProviderInstance)
  | [] => .ok []
  | none :: _ => .error "nil vm object in response"
  | some v :: rest =>
    match conv v with
    | .error e => .error ("failed to convert VM details: " ++ e)
    | .ok d =>
      match listLoop conv rest with
      | .error e => .error e
      | .ok tl => .ok (d :: tl)

/-- Embedding of `azureProvider.ListInstances` (provider.go lines 187-209).
The result is the Go pair (slice, error): `none` in the first component is a
nil slice, `none` in the second a nil error.  The provider response models
`a.azCli.ListVirtualMachines`: an error, a nil slice (`.ok none`), or a slice
of possibly-nil records. -/
def listInstances (resp : Except String (Option (List (Option AzVM))))
    (conv : AzVM → Except String ProviderInstance) :
    Option (List ProviderInstance) × Option String :=
  match resp with
  | .error e => (none, some ("failed to list instances: " ++ e))
  | .ok none => (some [], none)
  | .ok (some instances) =>
    match listLoop conv instances with
    | .error e => (none, some e)
    | .ok l => (some l, none)

/-- The possible outcomes of the Azure-side resource-group deletion, as the
spec distinguishes them: success, a not-found condition, or another failure. -/
inductive RGDeleteResult where
  | success
  | notFound
  | fail (e : String)
  deriving Repr, DecidableEq

/-- Modelled from the spec: `client.AzureCli.DeleteResourceGroup`
(internal/client, not under src/).  Per the spec, "a not-found condition on
the resource group is treated as successful deletion (idempotent delete)";
any other failure is reported. -/
def azDeleteResourceGroup : RGDeleteResult → Except String Unit
  | .success => .ok ()
  | .notFound => .ok ()
  | .fail e => .error e

/-- Embedding of `azureProvider.DeleteInstance` (provider.go lines 165-171):
delete the resource group named after the instance, wrapping any reported
error; `none` is Go's nil error. -/
def deleteInstance (r : RGDeleteResult) : Option String :=
  match azDeleteResourceGroup r with
  | .error e => some ("failed to delete instance: " ++ e)
  | .ok _ => none

/-! Concrete sample inputs, used by witnesses and counterexamples. -/

def bp0 : BootstrapInstance :=
  { name := "garm-abc", osType := "linux", osArch := "amd64" }

def sp0 : RunnerSpec :=
  { bootstrapParams := bp0
    diskSizeGB := 127
    useEphemeralStorage := false
    confidential := false
    vmSize := "Standard_D2s_v3"
    virtualNetworkCIDR := "10.10.0.0/16"
    allocatePublicIP := false
    useAcceleratedNetworking := false }

def img0 : ImageDetails := { sku := "22_04-lts", version := "latest" }

/-- An environment in which every cloud operation succeeds and every response
carries its identifier. -/
def baseEnv : AzEnv :=
  { getRunnerSpec := .ok sp0
    imageDetails := .ok img0
    getMaxEphemeralDiskSize := .ok 64
    createResourceGroup := .ok ()
    createVirtualNetwork := .ok ()
    createSubnet := .ok { id := some "subnet-id" }
    createPublicIP := .ok
      { properties := some { ipAddress := some "20.1.2.3" }, id := some "pip-id" }
    createNetworkSecurityGroup := .ok { id := some "nsg-id" }
    createNetWorkInterface := .ok { id := some "nic-id" }
    createVirtualMachine := .ok () }

/-- Spec requesting ephemeral storage with explicit size 100 GB. -/
def spCap : RunnerSpec :=
  { sp0 with useEphemeralStorage := true, diskSizeGB := 100 }

def envCap : AzEnv := { baseEnv with getRunnerSpec := .ok spCap }

/-- Spec requesting ephemeral storage, confidential, explicit size 0. -/
def spConf : RunnerSpec :=
  { sp0 with useEphemeralStorage := true, confidential := true, diskSizeGB := 0 }

def envConf : AzEnv := { baseEnv with getRunnerSpec := .ok spConf }

/-- Bootstrap request with an unsupported architecture. -/
def bpArm : BootstrapInstance := { bp0 with osArch := "arm64" }

/-- All operations succeed except virtual-machine creation. -/
def envVMFail : AzEnv := { baseEnv with createVirtualMachine := .error "boom" }

/-- Spec requesting a public IP. -/
def spPub : RunnerSpec := { sp0 with allocatePublicIP := true }

def envPub : AzEnv := { baseEnv with getRunnerSpec := .ok spPub }

/-- Public IP is created but its response carries neither properties nor ID. -/
def envPubNilID : AzEnv :=
  { envPub with createPublicIP := .ok { properties := none, id := none } }

/-- Public IP response with an ID but no properties (hence no address). -/
def envPubNoAddr : AzEnv :=
  { envPub with createPublicIP := .ok { properties := none, id := some "pip-id" } }

/-- The instance record produced by a successful run of `envPub`. -/
def instPub : ProviderInstance :=
  { providerID := "garm-abc", name := "garm-abc", osType := "linux",
    osArch := "amd64", osName := "22_04-lts", osVersion := "latest",
    status := "running",
    addresses := [{ address := "20.1.2.3", addrType := "public" }] }

/-! Helper lemmas about the trace of `afterPublicIP`. -/

lemma afterPublicIP_vm_cache (env : AzEnv) (sp : RunnerSpec) (img : ImageDetails)
    (subnet : SubnetResp) (cs : Int) (pubIP : String) (calls : List CloudCall)
    (hcalls : ∀ n c, CloudCall.createVirtualMachine n c ∈ calls → c = cs) :
    ∀ n c, CloudCall.createVirtualMachine n c ∈
      (afterPublicIP env sp img subnet cs pubIP calls).2 → c = cs := by
  intro n c hmem
  cases hnsg : env.createNetworkSecurityGroup with
  | error e =>
    simp [afterPublicIP, hnsg, runDefer] at hmem
    exact hcalls _ _ hmem
  | ok nsg =>
    cases hsid : subnet.id with
    | none =>
      simp [afterPublicIP, hnsg, hsid, runDefer] at hmem
      exact hcalls _ _ hmem
    | some sid =>
      cases hnid : nsg.id with
      | none =>
        simp [afterPublicIP, hnsg, hsid, hnid, runDefer] at hmem
        exact hcalls _ _ hmem
      | some nid =>
        cases hnic : env.createNetWorkInterface with
        | error e =>
          simp [afterPublicIP, hnsg, hsid, hnid, hnic, runDefer] at hmem
          exact hcalls _ _ hmem
        | ok nic =>
          cases hcid : nic.id with
          | none =>
            simp [afterPublicIP, hnsg, hsid, hnid, hnic, hcid, runDefer] at hmem
            exact hcalls _ _ hmem
          | some cid =>
            cases hvm : env.createVirtualMachine with
            | error e =>
              simp [afterPublicIP, hnsg, hsid, hnid, hnic, hcid, hvm, runDefer] at hmem
              rcases hmem with hmem | ⟨-, rfl⟩
              · exact hcalls _ _ hmem
              · rfl
            | ok u =>
              simp [afterPublicIP, hnsg, hsid, hnid, hnic, hcid, hvm, runDefer] at hmem
              rcases hmem with hmem | ⟨-, rfl⟩
              · exact hcalls _ _ hmem
              · rfl

lemma afterPublicIP_no_getMax (env : AzEnv) (sp : RunnerSpec) (img : ImageDetails)
    (subnet : SubnetResp) (cs : Int) (pubIP : String) (calls : List CloudCall)
    (hcalls : ∀ v, CloudCall.getMaxEphemeralDiskSize v ∉ calls) :
    ∀ v, CloudCall.getMaxEphemeralDiskSize v ∉
      (afterPublicIP env sp img subnet cs pubIP calls).2 := by
  intro v hmem
  cases hnsg : env.createNetworkSecurityGroup with
  | error e =>
    simp [afterPublicIP, hnsg, runDefer] at hmem
    exact hcalls _ hmem
  | ok nsg =>
    cases hsid : subnet.id with
    | none =>
      simp [afterPublicIP, hnsg, hsid, runDefer] at hmem
      exact hcalls _ hmem
    | some sid =>
      cases hnid : nsg.id with
      | none =>
        simp [afterPublicIP, hnsg, hsid, hnid, runDefer] at hmem
        exact hcalls _ hmem
      | some nid =>
        cases hnic : env.createNetWorkInterface with
        | error e =>
          simp [afterPublicIP, hnsg, hsid, hnid, hnic, runDefer] at hmem
          exact hcalls _ hmem
        | ok nic =>
          cases hcid : nic.id with
          | none =>
            simp [afterPublicIP, hnsg, hsid, hnid, hnic, hcid, runDefer] at hmem
            exact hcalls _ hmem
          | some cid =>
            cases hvm : env.createVirtualMachine with
            | error e =>
              simp [afterPublicIP, hnsg, hsid, hnid, hnic, hcid, hvm, runDefer] at hmem
              exact hcalls _ hmem
            | ok u =>
              simp [afterPublicIP, hnsg, hsid, hnid, hnic, hcid, hvm, runDefer] at hmem
              exact hcalls _ hmem

lemma afterPublicIP_nsg_called (env : AzEnv) (sp : RunnerSpec) (img : ImageDetails)
    (subnet : SubnetResp) (cs : Int) (pubIP : String) (calls : List CloudCall) :
    CloudCall.createNetworkSecurityGroup sp.bootstrapParams.name ∈
      (afterPublicIP env sp img subnet cs pubIP calls).2 := by
  cases hnsg : env.createNetworkSecurityGroup with
  | error e => simp [afterPublicIP, hnsg, runDefer]
  | ok nsg =>
    cases hsid : subnet.id with
    | none => simp [afterPublicIP, hnsg, hsid, runDefer]
    | some sid =>
      cases hnid : nsg.id with
      | none => simp [afterPublicIP, hnsg, hsid, hnid, runDefer]
      | some nid =>
        cases hnic : env.createNetWorkInterface with
        | error e => simp [afterPublicIP, hnsg, hsid, hnid, hnic, runDefer]
        | ok nic =>
          cases hcid : nic.id with
          | none => simp [afterPublicIP, hnsg, hsid, hnid, hnic, hcid, runDefer]
          | some cid =>
            cases hvm : env.createVirtualMachine with
            | error e => simp [afterPublicIP, hnsg, hsid, hnid, hnic, hcid, hvm, runDefer]
            | ok u => simp [afterPublicIP, hnsg, hsid, hnid, hnic, hcid, hvm, runDefer]

lemma afterPublicIP_ok (env : AzEnv) (sp : RunnerSpec) (img : ImageDetails)
    (subnet : SubnetResp) (cs : Int) (pubIP : String) (calls : List CloudCall)
    (inst : ProviderInstance)
    (h : (afterPublicIP env sp img subnet cs pubIP calls).1 = .ok inst) :
    inst = { providerID := sp.bootstrapParams.name
             name := sp.bootstrapParams.name
             osType := sp.bootstrapParams.osType
             osArch := sp.bootstrapParams.osArch
             osName := img.sku
             osVersion := img.version
             status := "running"
             addresses :=
               if pubIP = "" then []
               else [{ address := pubIP, addrType := PublicAddress }] } := by
  cases hnsg : env.createNetworkSecurityGroup with
  | error e => simp [afterPublicIP, hnsg, runDefer] at h
  | ok nsg =>
    cases hsid : subnet.id with
    | none => simp [afterPublicIP, hnsg, hsid, runDefer] at h
    | some sid =>
      cases hnid : nsg.id with
      | none => simp [afterPublicIP, hnsg, hsid, hnid, runDefer] at h
      | some nid =>
        cases hnic : env.createNetWorkInterface with
        | error e => simp [afterPublicIP, hnsg, hsid, hnid, hnic, runDefer] at h
        | ok nic =>
          cases hcid : nic.id with
          | none => simp [afterPublicIP, hnsg, hsid, hnid, hnic, hcid, runDefer] at h
          | some cid =>
            cases hvm : env.createVirtualMachine with
            | error e => simp [afterPublicIP, hnsg, hsid, hnid, hnic, hcid, hvm, runDefer] at h
            | ok u =>
              simp [afterPublicIP, hnsg, hsid, hnid, hnic, hcid, hvm, runDefer] at h
              exact h.symm

/-! Helper lemmas about the trace of `createInstance`. -/

lemma createInstance_vm_cache_eph (bp : BootstrapInstance) (env : AzEnv)
    (sp : RunnerSpec) (m : Int) (hsp : env.getRunnerSpec = .ok sp)
    (heph : sp.useEphemeralStorage = true)
    (hmax : env.getMaxEphemeralDiskSize = .ok m) :
    ∀ n c, CloudCall.createVirtualMachine n c ∈ (createInstance bp env).2 →
      c = if sp.diskSizeGB = 0 then (if sp.confidential then m - 1 else m)
          else sp.diskSizeGB := by
  intro n c hmem
  by_cases harch : (bp.osArch != Amd64) = true
  · simp [createInstance, harch] at hmem
  · cases himg : env.imageDetails with
    | error e => simp [createInstance, harch, hsp, himg] at hmem
    | ok img =>
      by_cases hlt : (if sp.confidential then m - 1 else m) < sp.diskSizeGB
      · simp [createInstance, harch, hsp, himg, heph, hmax, hlt] at hmem
      · cases hrg : env.createResourceGroup with
        | error e =>
          simp [createInstance, harch, hsp, himg, heph, hmax, hlt, hrg] at hmem
        | ok u1 =>
          cases hvnet : env.createVirtualNetwork with
          | error e =>
            simp [createInstance, harch, hsp, himg, heph, hmax, hlt, hrg, hvnet,
              runDefer] at hmem
          | ok u2 =>
            cases hsub : env.createSubnet with
            | error e =>
              simp [createInstance, harch, hsp, himg, heph, hmax, hlt, hrg, hvnet,
                hsub, runDefer] at hmem
            | ok subnet =>
              by_cases hpub : sp.allocatePublicIP = true
              · cases hpip : env.createPublicIP with
                | error e =>
                  simp [createInstance, harch, hsp, himg, heph, hmax, hlt, hrg,
                    hvnet, hsub, hpub, hpip, runDefer] at hmem
                | ok resp =>
                  cases hid : resp.id with
                  | none =>
                    simp [createInstance, harch, hsp, himg, heph, hmax, hlt, hrg,
                      hvnet, hsub, hpub, hpip, hid, runDefer] at hmem
                  | some pid =>
                    simp [createInstance, harch, hsp, himg, heph, hmax, hlt, hrg,
                      hvnet, hsub, hpub, hpip, hid] at hmem
                    exact afterPublicIP_vm_cache env sp img subnet _ _ _
                      (by intro a b hb; simp at hb) n c hmem
              · simp [createInstance, harch, hsp, himg, heph, hmax, hlt, hrg,
                  hvnet, hsub, hpub] at hmem
                exact afterPublicIP_vm_cache env sp img subnet _ _ _
                  (by intro a b hb; simp at hb) n c hmem

/-- C4: for every bootstrap request whose spec has ephemeral storage disabled,
the disk size passed to virtual-machine creation is the spec's explicit disk
size unchanged, and the ephemeral-maximum query is never issued, whatever the
provider-reported maximum would have been. -/
theorem createInstance_ephemeral_disabled (bp : BootstrapInstance) (env : AzEnv)
    (sp : RunnerSpec) (hsp : env.getRunnerSpec = .ok sp)
    (heph : sp.useEphemeralStorage = false) :
    (∀ v, CloudCall.getMaxEphemeralDiskSize v ∉ (createInstance bp env).2) ∧
    (∀ n c, CloudCall.createVirtualMachine n c ∈ (createInstance bp env).2 →
      c = sp.diskSizeGB) := by
  constructor
  · intro v hmem
    by_cases harch : (bp.osArch != Amd64) = true
    · simp [createInstance, harch] at hmem
    · cases himg : env.imageDetails with
      | error e => simp [createInstance, harch, hsp, himg] at hmem
      | ok img =>
        cases hrg : env.createResourceGroup with
        | error e => simp [createInstance, harch, hsp, himg, heph, hrg] at hmem
        | ok u1 =>
          cases hvnet : env.createVirtualNetwork with
          | error e =>
            simp [createInstance, harch, hsp, himg, heph, hrg, hvnet,
              runDefer] at hmem
          | ok u2 =>
            cases hsub : env.createSubnet with
            | error e =>
              simp [createInstance, harch, hsp, himg, heph, hrg, hvnet, hsub,
                runDefer] at hmem
            | ok subnet =>
              by_cases hpub : sp.allocatePublicIP = true
              · cases hpip : env.createPublicIP with
                | error e =>
                  simp [createInstance, harch, hsp, himg, heph, hrg, hvnet, hsub,
                    hpub, hpip, runDefer] at hmem
                | ok resp =>
                  cases hid : resp.id with
                  | none =>
                    simp [createInstance, harch, hsp, himg, heph, hrg, hvnet,
                      hsub, hpub, hpip, hid, runDefer] at hmem
                  | some pid =>
                    simp [createInstance, harch, hsp, himg, heph, hrg, hvnet,
                      hsub, hpub, hpip, hid] at hmem
                    exact afterPublicIP_no_getMax env sp img subnet _ _ _
                      (by intro a hb; simp at hb) v hmem
              · simp [createInstance, harch, hsp, himg, heph, hrg, hvnet, hsub,
                  hpub] at hmem
                exact afterPublicIP_no_getMax env sp img subnet _ _ _
                  (by intro a hb; simp at hb) v hmem
  · intro n c hmem
    by_cases harch : (bp.osArch != Amd64) = true
    · simp [createInstance, harch] at hmem
    · cases himg : env.imageDetails with
      | error e => simp [createInstance, harch, hsp, himg] at hmem
      | ok img =>
        cases hrg : env.createResourceGroup with
        | error e => simp [createInstance, harch, hsp, himg, heph, hrg] at hmem
        | ok u1 =>
          cases hvnet : env.createVirtualNetwork with
          | error e =>
            simp [createInstance, harch, hsp, himg, heph, hrg, hvnet,
              runDefer] at hmem
          | ok u2 =>
            cases hsub : env.createSubnet with
            | error e =>
              simp [createInstance, harch, hsp, himg, heph, hrg, hvnet, hsub,
                runDefer] at hmem
            | ok subnet =>
              by_cases hpub : sp.allocatePublicIP = true
              · cases hpip : env.createPublicIP with
                | error e =>
                  simp [createInstance, harch, hsp, himg, heph, hrg, hvnet, hsub,
                    hpub, hpip, runDefer] at hmem
                | ok resp =>
                  cases hid : resp.id with
                  | none =>
                    simp [createInstance, harch, hsp, himg, heph, hrg, hvnet,
                      hsub, hpub, hpip, hid, runDefer] at hmem
                  | some pid =>
                    simp [createInstance, harch, hsp, himg, heph, hrg, hvnet,
                      hsub, hpub, hpip, hid] at hmem
                    exact afterPublicIP_vm_cache env sp img subnet _ _ _
                      (by intro a b hb; simp at hb) n c hmem
              · simp [createInstance, harch, hsp, himg, heph, hrg, hvnet, hsub,
                  hpub] at hmem
                exact afterPublicIP_vm_cache env sp img subnet _ _ _
                  (by intro a b hb; simp at hb) n c hmem

lemma listLoop_nil_mem (conv : AzVM → Except String ProviderInstance)
    (l : List (Option AzVM)) (h : none ∈ l) :
    ∃ e, listLoop conv l = .error e := by
  induction l with
  | nil => simp at h
  | cons x rest ih =>
    cases x with
    | none => exact ⟨_, rfl⟩
    | some v =>
      simp at h
      obtain ⟨e, he⟩ := ih h
      cases hc : conv v with
      | error e2 =>
        exact ⟨"failed to convert VM details: " ++ e2, by simp [listLoop, hc]⟩
      | ok d => exact ⟨e, by simp [listLoop, hc, he]⟩

/-! The claim theorems. -/

/-- C1 (counter-evidence for the rollback invariant): with every cloud
operation succeeding except virtual-machine creation, CreateInstance returns
the wrapped VM error but never deletes the resource group: the
`if err := a.azCli.CreateVirtualMachine(...)` at provider.go line 138 declares
a fresh `err`, so the deferred cleanup of lines 99-103 sees the function-scope
`err` still nil and skips the compensating deletion. -/
theorem createInstance_vm_failure_no_rollback :
    createInstance bp0 envVMFail =
      (.error "failed to create VM: boom",
        [.createResourceGroup "garm-abc", .createVirtualNetwork "garm-abc",
         .createSubnet "garm-abc", .createNetworkSecurityGroup "garm-abc",
         .createNetWorkInterface "garm-abc",
         .createVirtualMachine "garm-abc" 127]) ∧
    CloudCall.deleteResourceGroup "garm-abc" ∉ (createInstance bp0 envVMFail).2 := by
  constructor <;> decide

/-- C2: with ephemeral storage enabled and a non-zero explicit disk size, a
request strictly above the adjusted maximum (maximum minus 1 GB when
confidential, else the maximum) fails with the capacity error naming the VM
size, the maximum and the requested value, and the only cloud call issued is
the maximum-size query (no resource group or other resource is created);
a non-zero request within the adjusted maximum is passed to virtual-machine
creation unchanged. -/
theorem createInstance_capacity_check (bp : BootstrapInstance) (env : AzEnv)
    (sp : RunnerSpec) (img : ImageDetails) (m : Int)
    (harch : bp.osArch = Amd64)
    (hsp : env.getRunnerSpec = .ok sp)
    (himg : env.imageDetails = .ok img)
    (heph : sp.useEphemeralStorage = true)
    (hmax : env.getMaxEphemeralDiskSize = .ok m)
    (hpos : 0 < sp.diskSizeGB) :
    ((if sp.confidential then m - 1 else m) < sp.diskSizeGB →
      createInstance bp env =
        (.error ("maximul ephemeral disk size for " ++ sp.vmSize ++ " is "
            ++ toString (if sp.confidential then m - 1 else m)
            ++ " GB (requested " ++ toString sp.diskSizeGB ++ ")"),
          [.getMaxEphemeralDiskSize sp.vmSize])) ∧
    (¬ (if sp.confidential then m - 1 else m) < sp.diskSizeGB →
      ∀ n c, CloudCall.createVirtualMachine n c ∈ (createInstance bp env).2 →
        c = sp.diskSizeGB) := by
  constructor
  · intro hlt
    simp [createInstance, harch, hsp, himg, heph, hmax, hlt]
  · intro hge n c hmem
    have hc := createInstance_vm_cache_eph bp env sp m hsp heph hmax n c hmem
    rw [hc, if_neg (by omega)]

/-- C3: with ephemeral storage enabled and explicit disk size 0, the disk size
passed to virtual-machine creation is the provider-reported maximum, reduced
by 1 GB exactly when confidential computing is enabled. -/
theorem createInstance_ephemeral_default_size (bp : BootstrapInstance)
    (env : AzEnv) (sp : RunnerSpec) (m : Int)
    (hsp : env.getRunnerSpec = .ok sp)
    (heph : sp.useEphemeralStorage = true)
    (hzero : sp.diskSizeGB = 0)
    (hmax : env.getMaxEphemeralDiskSize = .ok m) :
    ∀ n c, CloudCall.createVirtualMachine n c ∈ (createInstance bp env).2 →
      c = if sp.confidential then m - 1 else m := by
  intro n c hmem
  have hc := createInstance_vm_cache_eph bp env sp m hsp heph hmax n c hmem
  rw [hc, if_pos hzero]

/-- C5: a bootstrap request whose OS architecture is not amd64 fails
immediately with the unsupported-architecture error, and no cloud call of any
kind is issued. -/
theorem createInstance_invalid_arch (bp : BootstrapInstance) (env : AzEnv)
    (h : bp.osArch ≠ Amd64) :
    createInstance bp env =
      (.error ("invalid architecture " ++ bp.osArch ++ " (supported: "
          ++ Amd64 ++ ")"), []) := by
  simp [createInstance, h]

/-- C8: a provider response list containing a null virtual-machine record
makes ListInstances return a nil slice together with an error: no partial or
shorter slice is ever produced. -/
theorem listInstances_nil_element_fails (l : List (Option AzVM))
    (conv : AzVM → Except String ProviderInstance) (h : none ∈ l) :
    (listInstances (.ok (some l)) conv).1 = none ∧
    ∃ e, (listInstances (.ok (some l)) conv).2 = some e := by
  obtain ⟨e, he⟩ := listLoop_nil_mem conv l h
  exact ⟨by simp [listInstances, he], e, by simp [listInstances, he]⟩

/-- C9: deleting an instance whose resource group does not exist reports
success (nil error): the Azure-side not-found condition is normalized to
successful deletion. -/
theorem deleteInstance_notFound_ok : deleteInstance .notFound = none := rfl

/-- C10: a nil (absent) virtual-machine list with no error from the provider
makes ListInstances return an empty, non-nil slice and a nil error. -/
theorem listInstances_nil_slice_empty
    (conv : AzVM → Except String ProviderInstance) :
    listInstances (.ok none) conv = (some [], none) := rfl

/-! Witnesses. -/

/-- Witness for C2: VM size Standard_D2s_v3, maximum 64 GB, non-confidential,
requested 100 GB: the call fails with the capacity error after only the
maximum-size query. -/
theorem createInstance_capacity_check_witness :
    createInstance bp0 envCap =
      (.error "maximul ephemeral disk size for Standard_D2s_v3 is 64 GB (requested 100)",
        [.getMaxEphemeralDiskSize "Standard_D2s_v3"]) := by
  have h := (createInstance_capacity_check bp0 envCap spCap img0 64
    rfl rfl rfl rfl rfl (by decide)).1 (by decide)
  exact h.trans (by decide)

/-- Witness for C3: maximum 64 GB, confidential, explicit size 0: the VM is
created with a 63 GB disk. -/
theorem createInstance_ephemeral_default_size_witness :
    CloudCall.createVirtualMachine "garm-abc" 63 ∈ (createInstance bp0 envConf).2 ∧
    (63 : Int) = (if spConf.confidential then 64 - 1 else 64) :=
  ⟨by decide,
    createInstance_ephemeral_default_size bp0 envConf spConf 64
      rfl rfl rfl rfl "garm-abc" 63 (by decide)⟩

/-- Witness for C4: in the all-success environment with ephemeral storage
disabled, the maximum-size query never appears in the trace and any VM call
carries the explicit 127 GB. -/
theorem createInstance_ephemeral_disabled_witness :
    (∀ v, CloudCall.getMaxEphemeralDiskSize v ∉ (createInstance bp0 baseEnv).2) ∧
    (∀ n c, CloudCall.createVirtualMachine n c ∈ (createInstance bp0 baseEnv).2 →
      c = sp0.diskSizeGB) :=
  createInstance_ephemeral_disabled bp0 baseEnv sp0 rfl rfl

/-- Witness for C5: architecture arm64 fails immediately with no cloud call. -/
theorem createInstance_invalid_arch_witness :
    createInstance bpArm baseEnv =
      (.error "invalid architecture arm64 (supported: amd64)", []) :=
  (createInstance_invalid_arch bpArm baseEnv (by decide)).trans (by decide)

/-- Witness for C8: a two-element response whose second record is null makes
ListInstances fail with no slice. -/
theorem listInstances_nil_element_fails_witness :
    (listInstances (.ok (some [some ⟨0⟩, none]))
        (fun _ => .error "unused")).1 = none ∧
    ∃ e, (listInstances (.ok (some [some ⟨0⟩, none]))
        (fun _ => .error "unused")).2 = some e :=
  listInstances_nil_element_fails [some ⟨0⟩, none] (fun _ => .error "unused")
    (by decide)

/-- C6: every successful CreateInstance call returns an instance record whose
provider identifier and name both equal the instance name carried by the
bootstrap request (as embedded in the spec), whose OS name and version come
from the resolved image details, whose status is the literal `running`, and
whose address list contains the captured public address, typed public,
whenever a public IP was allocated and its response reported a non-empty
address. -/
theorem createInstance_success_record (bp : BootstrapInstance) (env : AzEnv)
    (sp : RunnerSpec) (img : ImageDetails) (inst : ProviderInstance)
    (hsp : env.getRunnerSpec = .ok sp)
    (hbp : sp.bootstrapParams = bp)
    (himg : env.imageDetails = .ok img)
    (hok : (createInstance bp env).1 = .ok inst) :
    inst.providerID = bp.name ∧ inst.name = bp.name ∧
    inst.osName = img.sku ∧ inst.osVersion = img.version ∧
    inst.status = "running" ∧
    (∀ resp p a, sp.allocatePublicIP = true → env.createPublicIP = .ok resp →
      resp.properties = some p → p.ipAddress = some a → a ≠ "" →
      Address.mk a PublicAddress ∈ inst.addresses) := by
  by_cases harch : (bp.osArch != Amd64) = true
  · simp [createInstance, harch] at hok
  · cases heph : sp.useEphemeralStorage with
    | true =>
      cases hmax : env.getMaxEphemeralDiskSize with
      | error e => simp [createInstance, harch, hsp, himg, heph, hmax] at hok
      | ok m =>
        by_cases hlt : (if sp.confidential then m - 1 else m) < sp.diskSizeGB
        · simp [createInstance, harch, hsp, himg, heph, hmax, hlt] at hok
        · cases hrg : env.createResourceGroup with
          | error e =>
            simp [createInstance, harch, hsp, himg, heph, hmax, hlt, hrg] at hok
          | ok u1 =>
            cases hvnet : env.createVirtualNetwork with
            | error e =>
              simp [createInstance, harch, hsp, himg, heph, hmax, hlt, hrg,
                hvnet, runDefer] at hok
            | ok u2 =>
              cases hsub : env.createSubnet with
              | error e =>
                simp [createInstance, harch, hsp, himg, heph, hmax, hlt, hrg,
                  hvnet, hsub, runDefer] at hok
              | ok subnet =>
                by_cases hpub : sp.allocatePublicIP = true
                · cases hpip : env.createPublicIP with
                  | error e =>
                    simp [createInstance, harch, hsp, himg, heph, hmax, hlt,
                      hrg, hvnet, hsub, hpub, hpip, runDefer] at hok
                  | ok resp =>
                    cases hid : resp.id with
                    | none =>
                      simp [createInstance, harch, hsp, himg, heph, hmax, hlt,
                        hrg, hvnet, hsub, hpub, hpip, hid, runDefer] at hok
                    | some pid =>
                      simp [createInstance, harch, hsp, himg, heph, hmax, hlt,
                        hrg, hvnet, hsub, hpub, hpip, hid] at hok
                      have hinst := afterPublicIP_ok _ _ _ _ _ _ _ _ hok
                      subst hinst
                      refine ⟨by simp [hbp], by simp [hbp], rfl, rfl, rfl, ?_⟩
                      intro resp2 p a hpub2 hpip2 hprops hip hne
                      injection hpip2 with hresp
                      subst hresp
                      simp [hprops, hip, hne]
                · simp [createInstance, harch, hsp, himg, heph, hmax, hlt, hrg,
                    hvnet, hsub, hpub] at hok
                  have hinst := afterPublicIP_ok _ _ _ _ _ _ _ _ hok
                  subst hinst
                  refine ⟨by simp [hbp], by simp [hbp], rfl, rfl, rfl, ?_⟩
                  intro resp2 p a hpub2 hpip2 hprops hip hne
                  exact absurd hpub2 hpub
    | false =>
      cases hrg : env.createResourceGroup with
      | error e => simp [createInstance, harch, hsp, himg, heph, hrg] at hok
      | ok u1 =>
        cases hvnet : env.createVirtualNetwork with
        | error e =>
          simp [createInstance, harch, hsp, himg, heph, hrg, hvnet,
            runDefer] at hok
        | ok u2 =>
          cases hsub : env.createSubnet with
          | error e =>
            simp [createInstance, harch, hsp, himg, heph, hrg, hvnet, hsub,
              runDefer] at hok
          | ok subnet =>
            by_cases hpub : sp.allocatePublicIP = true
            · cases hpip : env.createPublicIP with
              | error e =>
                simp [createInstance, harch, hsp, himg, heph, hrg, hvnet, hsub,
                  hpub, hpip, runDefer] at hok
              | ok resp =>
                cases hid : resp.id with
                | none =>
                  simp [createInstance, harch, hsp, himg, heph, hrg, hvnet,
                    hsub, hpub, hpip, hid, runDefer] at hok
                | some pid =>
                  simp [createInstance, harch, hsp, himg, heph, hrg, hvnet,
                    hsub, hpub, hpip, hid] at hok
                  have hinst := afterPublicIP_ok _ _ _ _ _ _ _ _ hok
                  subst hinst
                  refine ⟨by simp [hbp], by simp [hbp], rfl, rfl, rfl, ?_⟩
                  intro resp2 p a hpub2 hpip2 hprops hip hne
                  injection hpip2 with hresp
                  subst hresp
                  simp [hprops, hip, hne]
            · simp [createInstance, harch, hsp, himg, heph, hrg, hvnet, hsub,
                hpub] at hok
              have hinst := afterPublicIP_ok _ _ _ _ _ _ _ _ hok
              subst hinst
              refine ⟨by simp [hbp], by simp [hbp], rfl, rfl, rfl, ?_⟩
              intro resp2 p a hpub2 hpip2 hprops hip hne
              exact absurd hpub2 hpub

/-- C7 counterexample: with a public IP requested and the provider's response
carrying neither the address field nor the resource identifier,
CreateInstance does crash: `pubIPID = *publicIP.ID` (provider.go line 125)
dereferences the nil identifier unconditionally, so the call panics rather
than tolerating the absent field. -/
theorem createInstance_nil_pubip_id_panics :
    createInstance bp0 envPubNilID =
      (.panicked,
        [.createResourceGroup "garm-abc", .createVirtualNetwork "garm-abc",
         .createSubnet "garm-abc", .createPublicIP "garm-abc"]) := by decide

/-- C7 (amended): for a CreateInstance call that requests (and reaches) public
IP creation, absence of the address field on the response is tolerated —
whenever the resource identifier is present the call proceeds past the
public-IP step to network-security-group creation, whatever the address field
holds — but absence of the resource identifier is not: the call panics on the
nil dereference. -/
theorem createInstance_pubip_partial_response (bp : BootstrapInstance)
    (env : AzEnv) (sp : RunnerSpec) (img : ImageDetails) (subnet : SubnetResp)
    (resp : PublicIPResp)
    (harch : bp.osArch = Amd64)
    (hsp : env.getRunnerSpec = .ok sp)
    (himg : env.imageDetails = .ok img)
    (hreach : sp.useEphemeralStorage = true →
      ∃ m, env.getMaxEphemeralDiskSize = .ok m ∧
        ¬ (if sp.confidential then m - 1 else m) < sp.diskSizeGB)
    (hrg : env.createResourceGroup = .ok ())
    (hvnet : env.createVirtualNetwork = .ok ())
    (hsub : env.createSubnet = .ok subnet)
    (hpub : sp.allocatePublicIP = true)
    (hpip : env.createPublicIP = .ok resp) :
    (resp.id = none → (createInstance bp env).1 = .panicked) ∧
    (∀ i, resp.id = some i →
      CloudCall.createNetworkSecurityGroup sp.bootstrapParams.name ∈
        (createInstance bp env).2) := by
  cases heph : sp.useEphemeralStorage with
  | true =>
    obtain ⟨m, hmax, hlt⟩ := hreach heph
    constructor
    · intro hid
      simp [createInstance, harch, hsp, himg, heph, hmax, hlt, hrg, hvnet,
        hsub, hpub, hpip, hid, runDefer]
    · intro i hid
      simp [createInstance, harch, hsp, himg, heph, hmax, hlt, hrg, hvnet,
        hsub, hpub, hpip, hid]
      exact afterPublicIP_nsg_called env sp img subnet _ _ _
  | false =>
    constructor
    · intro hid
      simp [createInstance, harch, hsp, himg, heph, hrg, hvnet, hsub, hpub,
        hpip, hid, runDefer]
    · intro i hid
      simp [createInstance, harch, hsp, himg, heph, hrg, hvnet, hsub, hpub,
        hpip, hid]
      exact afterPublicIP_nsg_called env sp img subnet _ _ _

/-- Witness for C6: the all-success run with a public IP returns exactly
`instPub`, whose fields satisfy the record properties. -/
theorem createInstance_success_record_witness :
    instPub.providerID = bp0.name ∧ instPub.name = bp0.name ∧
    instPub.osName = img0.sku ∧ instPub.osVersion = img0.version ∧
    instPub.status = "running" ∧
    (∀ resp p a, spPub.allocatePublicIP = true →
      envPub.createPublicIP = .ok resp →
      resp.properties = some p → p.ipAddress = some a → a ≠ "" →
      Address.mk a PublicAddress ∈ instPub.addresses) :=
  createInstance_success_record bp0 envPub spPub img0 instPub
    rfl rfl rfl (by decide)

/-- Witness for C7 (amended): with the response carrying an identifier but no
properties, the run proceeds to network-security-group creation. -/
theorem createInstance_pubip_partial_response_witness :
    CloudCall.createNetworkSecurityGroup "garm-abc" ∈
      (createInstance bp0 envPubNoAddr).2 :=
  (createInstance_pubip_partial_response bp0 envPubNoAddr spPub img0
    { id := some "subnet-id" } { properties := none, id := some "pip-id" }
    rfl rfl rfl (fun hfalse => absurd hfalse (by decide))
    rfl rfl rfl rfl rfl).2 "pip-id" rfl

end GarmAz
